import Mathlib

/-!
Verification development for the hookhub webhook relay.

The definitions below are a shallow embedding of the repository's Rust
source: `src/lib.rs` (envelope and HTTP-version mapping), `src/server.rs`
(intake handler, fan-out broadcaster, subscriber session, auth guard) and
`src/client.rs` / `src/profiles.rs` (URL preparation, forwarder target URL,
reconnect loop).  Behaviour of the external crates the source calls into
(`url`, `http`, `tokio::sync::broadcast`) is modelled from those crates'
documented semantics where the source depends on it.
-/

/-! ### HTTP versions and the version mapping (src/lib.rs) -/

/-- The five HTTP protocol version constants of the `http` crate
(`actix_web::http::Version` re-exports the same type). -/
inductive HttpVersion
  | http09
  | http10
  | http11
  | http2
  | http3
deriving DecidableEq

/-- Server-side capture mapping, `impl From<actix_web::http::Version> for
Version` (src/lib.rs lines 17-28): 0.9 to 0, 1.0 to 1, 1.1 to 2, 2.0 to 2,
3.0 to 3.  The catch-all arm panics but is unreachable for the five
constants. -/
def captureVersion : HttpVersion → Nat
  | .http09 => 0
  | .http10 => 1
  | .http11 => 2
  | .http2 => 2
  | .http3 => 3

/-- Client-side rebuild mapping, `impl From<Version> for http::Version`
(src/lib.rs lines 30-41): 0 to 0.9, 1 to 1.0, 2 to 1.1, 3 to 2.0, 4 to 3.0;
every other integer hits the `panic!` arm, modelled as `none`. -/
def rebuildVersion : Nat → Option HttpVersion
  | 0 => some .http09
  | 1 => some .http10
  | 2 => some .http11
  | 3 => some .http2
  | 4 => some .http3
  | _ => none

/-- The wire envelope, `RequestMessage` (src/lib.rs lines 3-10).  `version`
holds the raw `u32` payload of the `Version` newtype; header values are the
strings produced at capture; the body is a byte sequence. -/
structure RequestMessage where
  method : String
  fullpath : String
  version : Nat
  headers : List (String × String)
  body : List Nat
deriving DecidableEq

/-- Deserialisation of the `Version(u32)` field by the serde derive under
`rmp_serde::from_slice` (src/lib.rs line 15, src/client.rs line 195): any
unsigned integer that fits in a `u32` is accepted; there is no range check
beyond the `u32` width, so only values of 2^32 or more are a decode error. -/
def decodeVersionField (n : Nat) : Except String Nat :=
  if n < 2 ^ 32 then .ok n else .error "DecodeError"

/-- The forwarder converts the envelope's version with `req.version.into()`
(src/client.rs line 262), i.e. the rebuild mapping. -/
def forwardRequestVersion (req : RequestMessage) : Option HttpVersion :=
  rebuildVersion req.version

/-! ### URLs and the `url` crate operations the client relies on -/

/-- A parsed absolute URL with a special scheme, as the `url` crate holds it:
scheme, host (with any port), serialised path, optional query. -/
structure Url where
  scheme : String
  host : String
  path : String
  query : Option String
deriving DecidableEq

/-- The `url` crate's PATH percent-encode set: C0 controls and DEL, space,
double quote, angle brackets, backtick (96), hash, question mark and curly
braces (123, 125). -/
def inPathEscapeSet (c : Char) : Bool :=
  decide (c.toNat < 32) || c.toNat == 127 || c == ' ' || c == '"' || c == '<' ||
    c == '>' || c == Char.ofNat 96 || c == '#' || c == '?' ||
    c == Char.ofNat 123 || c == Char.ofNat 125

/-- Upper-case hexadecimal digit. -/
def hexUpperDigit (n : Nat) : Char :=
  if n < 10 then Char.ofNat (48 + n) else Char.ofNat (55 + n)

/-- Percent-encode a single ASCII character when it is in the PATH set. -/
def percentEncodeChar (c : Char) : List Char :=
  if inPathEscapeSet c then ['%', hexUpperDigit (c.toNat / 16), hexUpperDigit (c.toNat % 16)]
  else [c]

/-- Serialise a path the way the `url` crate's path parser does for ASCII
input without dot segments or backslashes: percent-encode per the PATH set. -/
def encodePath (s : String) : String :=
  String.mk (s.data.flatMap percentEncodeChar)

/-- Model of `url::Url::set_path` on a special-scheme URL (ASCII input, no
dot segments, no backslashes): a leading slash is ensured, the characters of
the PATH set — the question mark included — are percent-encoded, and the
query component is left untouched. -/
def Url.setPath (u : Url) (p : String) : Url :=
  let p2 := if p.data.head? == some '/' then p else "/" ++ p
  { u with path := encodePath p2 }

/-- Serialisation of the URL, as `reqwest`/`url` render it. -/
def Url.render (u : Url) : String :=
  u.scheme ++ "://" ++ u.host ++ u.path ++
    (match u.query with
     | some q => "?" ++ q
     | none => "")

/-! ### Client URL preparation (src/client.rs, src/profiles.rs) -/

/-- `prepare_remote_url` (src/client.rs lines 228-239): reject a scheme other
than ws or wss; when the path differs from "/" warn and set it to
"/__hookhub__/"; a path equal to "/" is left as it is. -/
def prepare_remote_url (remote : Url) : Except String Url :=
  if remote.scheme ≠ "ws" ∧ remote.scheme ≠ "wss" then
    .error "remote must use ws or wss scheme"
  else if remote.path ≠ "/" then
    .ok (remote.setPath "/__hookhub__/")
  else
    .ok remote

/-- `prepare_local_url` (src/client.rs lines 241-252): reject a scheme other
than http or https; when the path differs from "/" warn and set it to "/";
the query component is never touched.  (`local` is a Lean keyword, so the
source's `local` binder is named `localOrigin` here.) -/
def prepare_local_url (localOrigin : Url) : Except String Url :=
  if localOrigin.scheme ≠ "http" ∧ localOrigin.scheme ≠ "https" then
    .error "local must use http or https scheme"
  else if localOrigin.path ≠ "/" then
    .ok (localOrigin.setPath "/")
  else
    .ok localOrigin

/-- The target URL built by `forward_request` (src/client.rs line 256):
`local.set_path(&req.fullpath)` on the prepared local origin. -/
def forwardTargetUrl (localOrigin : Url) (fullpath : String) : Url :=
  localOrigin.setPath fullpath

/-- A stored client profile, `Profile` (src/profiles.rs lines 74-79); the
source's `local` field is named `localOrigin` here. -/
structure Profile where
  remote : Url
  secret : String
  localOrigin : Url
deriving DecidableEq

/-- `Profile::prepare` (src/profiles.rs lines 82-103): scheme checks as in
the client, then the remote path is set to "/__hookhub__/" and the local
path to "/" unconditionally. -/
def Profile.prepare (p : Profile) : Except String Profile :=
  if p.remote.scheme ≠ "ws" ∧ p.remote.scheme ≠ "wss" then
    .error "remote must use ws or wss scheme"
  else if p.localOrigin.scheme ≠ "http" ∧ p.localOrigin.scheme ≠ "https" then
    .error "local must use http or https scheme"
  else
    .ok { remote := p.remote.setPath "/__hookhub__/", secret := p.secret,
          localOrigin := p.localOrigin.setPath "/" }

/-! ### Header values (the `http` crate) and the public intake handler
(src/server.rs) -/

/-- `http::HeaderValue::to_str` (called at src/server.rs line 130): succeeds
exactly when every byte of the value is visible ASCII (32 to 126) or a
horizontal tab, in which case the value is that byte sequence read as a
string; otherwise it is an error, which the handler's `unwrap` turns into a
panic. -/
def headerValueToStr (bytes : List Nat) : Option String :=
  if bytes.all (fun b => b == 9 || (decide (32 ≤ b) && decide (b ≤ 126))) then
    some (String.mk (bytes.map Char.ofNat))
  else none

/-- An inbound public HTTP request as actix hands it to the default handler:
method, the request target as received (path plus query), protocol version,
the ordered header sequence (actix stores header names lower-cased; values
are raw bytes) and the collected body. -/
structure HttpRequestModel where
  method : String
  uri : String
  version : HttpVersion
  headers : List (String × List Nat)
  body : List Nat
deriving DecidableEq

/-- The three successive header filters of `handle_receive` (src/server.rs
lines 124-129): drop `host`, then `origin`, then `connection`. -/
def filteredHeaders (hs : List (String × List Nat)) : List (String × List Nat) :=
  ((hs.filter (fun h => h.1 != "host")).filter (fun h => h.1 != "origin")).filter
    (fun h => h.1 != "connection")

/-- The header map of `handle_receive` (src/server.rs line 130):
`v.to_str().unwrap()` on every kept header in order; the first unrenderable
value panics, modelled as `none`. -/
def renderHeaders : List (String × List Nat) → Option (List (String × String))
  | [] => some []
  | h :: t =>
    match headerValueToStr h.2, renderHeaders t with
    | some v, some vs => some ((h.1, v) :: vs)
    | _, _ => none

/-! ### The fan-out bus (tokio `broadcast` channel of capacity 50,
src/server.rs lines 21-22 and 49-58) -/

/-- The channel capacity: `broadcast::channel::<RequestMessage>(50)`
(src/server.rs line 21). -/
def busCapacity : Nat := 50

/-- The broadcast channel's observable state: every envelope ever published,
in publication order, and the next-read position of each attached
receiver. -/
structure BusState where
  items : List RequestMessage
  receivers : List Nat
deriving DecidableEq

/-- `broadcast::Sender::send`: always appends the value and returns at once;
the result is `Ok(number of attached receivers)`, or `Err` when no receiver
is attached. -/
def busPublish (msg : RequestMessage) (b : BusState) : BusState × Except Unit Nat :=
  ({ b with items := b.items ++ [msg] },
   if b.receivers.length = 0 then .error () else .ok b.receivers.length)

/-- `Broadcaster::send` (src/server.rs lines 50-54): publish, and log the
delivery count only on `Ok` — `if let Ok(count)` silently discards the
no-receiver error. -/
def broadcasterSend (msg : RequestMessage) (b : BusState) (log : List String) :
    BusState × List String :=
  let r := busPublish msg b
  match r.2 with
  | .ok count => (r.1, log ++ ["Forwarded request to " ++ toString count ++ " client(s)"])
  | .error _ => (r.1, log)

/-- An HTTP response of the server. -/
structure HttpResponseModel where
  status : Nat
  body : String
deriving DecidableEq

/-- Everything `handle_receive` produces: the captured envelope, the bus and
log after publishing, and the response to the public caller. -/
structure ReceiveOutcome where
  message : RequestMessage
  bus : BusState
  log : List String
  response : HttpResponseModel
deriving DecidableEq

/-- `handle_receive` (src/server.rs lines 119-144): filter the headers, map
each kept value through `to_str().unwrap()` (a panic, modelled as `.error`,
surfaces as a 500 to the caller), build the envelope with the captured
method, full path, mapped version and body, publish it, and answer
`HttpResponse::Ok()` — status 200 with an empty body. -/
def handle_receive (req : HttpRequestModel) (b : BusState) (log : List String) :
    Except String ReceiveOutcome :=
  match renderHeaders (filteredHeaders req.headers) with
  | some hs =>
    let msg : RequestMessage :=
      { method := req.method, fullpath := req.uri,
        version := captureVersion req.version, headers := hs, body := req.body }
    let out := broadcasterSend msg b log
    .ok { message := msg, bus := out.1, log := out.2,
          response := { status := 200, body := "" } }
  | none => .error "header value is not a valid string"

/-! ### The subscriber session's receiver arm (src/server.rs lines 79-114) -/

/-- What one call of `Receiver::recv` yields, given the channel's items and
this receiver's position: the next envelope when it is still retained, a lag
error that skips to the oldest retained envelope when the receiver has
fallen more than `cap` behind, or pending when nothing new exists.  Returns
the result together with the receiver's new position. -/
inductive RecvResult
  | ok (msg : RequestMessage)
  | lagged (missed : Nat)
  | pending
deriving DecidableEq

/-- tokio broadcast receive: with `sent` items, positions below
`sent - cap` are overwritten; such a receiver gets `Lagged` and jumps to
`sent - cap`; otherwise the item at `pos` is delivered, or nothing is ready. -/
def busRecv (cap : Nat) (items : List RequestMessage) (pos : Nat) :
    RecvResult × Nat :=
  if pos + cap < items.length then
    (.lagged (items.length - cap - pos), items.length - cap)
  else
    match items.get? pos with
    | some m => (.ok m, pos + 1)
    | none => (.pending, pos)

/-- Whether the per-session loop is still running after an event. -/
inductive SessionStatus
  | alive
  | finished
deriving DecidableEq

/-- The receiver arm of the session's `select!` (src/server.rs lines
102-107): the arm's pattern is `Ok(msg) = receiver.recv()`, so only a
successful receive runs the body — the envelope is encoded and written, and
a write failure breaks the loop.  A `Lagged` error fails the pattern: the
branch is disabled for that `select!` call, nothing is logged, the loop is
not exited.  `writeOk` tells whether `session.binary` succeeded. -/
def sessionOnRecv (r : RecvResult) (writeOk : Bool) : SessionStatus :=
  match r with
  | .ok _ => if writeOk then .alive else .finished
  | .lagged _ => .alive
  | .pending => .alive

/-! ### The auth guard (src/server.rs lines 146-179) -/

/-- The decoded HTTP Basic credential: the user id and the optional
password. -/
structure Credentials where
  user_id : String
  password : Option String
deriving DecidableEq

/-- The validator's verdict: 401 with a `WWW-Authenticate: Basic` challenge,
400 with a diagnostic body, or acceptance. -/
inductive AuthOutcome
  | unauthorized (challenge : String)
  | badRequest (body : String)
  | accepted
deriving DecidableEq

/-- `basic_auth_validator` (src/server.rs lines 146-179): a missing or wrong
password is a 401 with a Basic challenge; then a user id differing from the
server's version string is a 400 whose body interpolates the client's user
id first and the server's version second; otherwise the request is
accepted. -/
def basic_auth_validator (serverVersion secret : String) (c : Credentials) :
    AuthOutcome :=
  match c.password with
  | some p =>
    if p ≠ secret then .unauthorized "Basic"
    else if c.user_id ≠ serverVersion then
      .badRequest ("Server is running version " ++ c.user_id ++
        " but you are running " ++ serverVersion)
    else .accepted
  | none => .unauthorized "Basic"

/-! ### The client's reconnect loop (src/client.rs lines 138-162, 167-219) -/

/-- How one run of `connect_and_run` ends: the server closed the WebSocket,
the shutdown signal fired, or some operation (connect, receive, decode,
send) returned an error. -/
inductive SessionEnd
  | serverClose
  | shutdownSignal
  | failure
deriving DecidableEq

/-- Whether `connect_and_run` returns `Ok(())` (src/client.rs lines
190-218): the loop breaks with `Ok` on a `Close` frame and on the shutdown
signal; every error propagates as `Err`. -/
def connectAndRunResult : SessionEnd → Bool
  | .serverClose => true
  | .shutdownSignal => true
  | .failure => false

/-- The constant retry delay, `Duration::from_secs(5)` (src/client.rs line
153). -/
def retryDelaySeconds : Nat := 5

/-- An observable event of the reconnect loop: a connection attempt, a full
timed wait of the given number of seconds, or a wait cut short by the
shutdown signal. -/
inductive LoopEvent
  | attempt
  | wait (secs : Nat)
  | waitInterrupted
deriving DecidableEq

/-- The retry loop of `handle_connect` (src/client.rs lines 138-162), run
over a script giving each attempt's end and whether the shutdown signal
fires during the following wait: the first attempt happens at once; on
`Ok(())` the loop breaks; on `Err` it logs, waits the constant 5 seconds in
a select against the shutdown receiver — breaking if shutdown wins — and
tries again. -/
def connectLoop : List (SessionEnd × Bool) → List LoopEvent
  | [] => []
  | (res, sdDuringWait) :: rest =>
    if connectAndRunResult res then [.attempt]
    else if sdDuringWait then [.attempt, .waitInterrupted]
    else .attempt :: .wait retryDelaySeconds :: connectLoop rest

/-- A sample envelope for concrete evaluations. -/
def sampleMsg : RequestMessage :=
  { method := "GET", fullpath := "/", version := 2, headers := [], body := [] }

/-- ASCII lower-casing of a header name (header names are ASCII tokens). -/
def asciiLower (c : Char) : Char :=
  if 65 <= c.toNat && c.toNat <= 90 then Char.ofNat (c.toNat + 32) else c

/-- Lower-case an ASCII header name character by character. -/
def lowerName (s : String) : String :=
  String.mk (s.data.map asciiLower)

def sampleReq : HttpRequestModel :=
  { method := "POST", uri := "/hook?x=1", version := .http11,
    headers := [("x-event", [112, 117, 115, 104])],
    body := [123, 34, 97, 34, 58, 49, 125] }

def sampleReq2 : HttpRequestModel :=
  { method := "POST", uri := "/hook?x=1", version := .http11,
    headers := [("host", [104]), ("x-h", [97]), ("origin", [111]),
                ("x-h", [98]), ("connection", [99])],
    body := [] }

/-! ### Helper lemmas -/

theorem headerValueToStr_isSome_eq (bytes : List Nat)
    (h : (headerValueToStr bytes).isSome) :
    headerValueToStr bytes = some (String.mk (bytes.map Char.ofNat)) := by
  by_cases hc : bytes.all (fun b => b == 9 || (decide (32 ≤ b) && decide (b ≤ 126))) = true
  · simp [headerValueToStr, hc]
  · simp [headerValueToStr, hc] at h

theorem renderHeaders_eq_map (l : List (String × List Nat))
    (h : ∀ x ∈ l, (headerValueToStr x.2).isSome) :
    renderHeaders l = some (l.map (fun x => (x.1, String.mk (x.2.map Char.ofNat)))) := by
  induction l with
  | nil => rfl
  | cons x t ih =>
    have hx := headerValueToStr_isSome_eq x.2 (h x (List.mem_cons_self x t))
    have ht := ih (fun y hy => h y (List.mem_cons_of_mem x hy))
    simp [renderHeaders, hx, ht]

theorem renderHeaders_none (l : List (String × List Nat))
    (h : renderHeaders l = none) : ∃ x ∈ l, headerValueToStr x.2 = none := by
  induction l with
  | nil => simp [renderHeaders] at h
  | cons x t ih =>
    by_cases hx : headerValueToStr x.2 = none
    · exact ⟨x, List.mem_cons_self x t, hx⟩
    · obtain ⟨v, hv⟩ := Option.ne_none_iff_exists'.mp hx
      by_cases htn : renderHeaders t = none
      · obtain ⟨y, hy, hyn⟩ := ih htn
        exact ⟨y, List.mem_cons_of_mem x hy, hyn⟩
      · obtain ⟨vs, hvs⟩ := Option.ne_none_iff_exists'.mp htn
        rw [renderHeaders, hv, hvs] at h
        simp at h

theorem filteredHeaders_eq (hs : List (String × List Nat)) :
    filteredHeaders hs =
      hs.filter (fun h => !(h.1 == "host" || h.1 == "origin" || h.1 == "connection")) := by
  unfold filteredHeaders
  rw [List.filter_filter, List.filter_filter]
  congr 1
  funext h
  simp only [bne, Bool.not_or]
  cases h.1 == "host" <;> cases h.1 == "origin" <;> cases h.1 == "connection" <;> rfl

theorem filteredHeaders_subset {hs : List (String × List Nat)}
    {x : String × List Nat} (h : x ∈ filteredHeaders hs) : x ∈ hs := by
  rw [filteredHeaders_eq] at h
  exact (List.mem_filter.mp h).1

theorem broadcasterSend_items (msg : RequestMessage) (b : BusState) (log : List String) :
    (broadcasterSend msg b log).1.items = b.items ++ [msg] := by
  by_cases h0 : b.receivers.length = 0 <;> simp [broadcasterSend, busPublish, h0]

theorem handle_receive_ok (req : HttpRequestModel) (b : BusState) (log : List String)
    (h : ∀ x ∈ filteredHeaders req.headers, (headerValueToStr x.2).isSome) :
    ∃ out, handle_receive req b log = .ok out
      ∧ out.response = ⟨200, ""⟩
      ∧ out.message.method = req.method
      ∧ out.message.fullpath = req.uri
      ∧ out.message.version = captureVersion req.version
      ∧ out.message.body = req.body
      ∧ out.message.headers = (filteredHeaders req.headers).map
          (fun x => (x.1, String.mk (x.2.map Char.ofNat)))
      ∧ out.bus.items = b.items ++ [out.message] := by
  unfold handle_receive
  rw [renderHeaders_eq_map _ h]
  exact ⟨_, rfl, rfl, rfl, rfl, rfl, rfl, rfl, broadcasterSend_items _ b log⟩

theorem connectLoop_head (s : List (SessionEnd × Bool)) (h : s ≠ []) :
    (connectLoop s).head? = some .attempt := by
  match s with
  | (res, sd) :: rest => cases res <;> cases sd <;> simp [connectLoop, connectAndRunResult]

theorem connectLoop_chain (s : List (SessionEnd × Bool)) :
    List.Chain' (fun a b => b = LoopEvent.attempt → a = LoopEvent.wait retryDelaySeconds)
      (connectLoop s) := by
  induction s with
  | nil => simp [connectLoop]
  | cons x rest ih =>
    obtain ⟨res, sd⟩ := x
    cases res <;> cases sd <;> simp only [connectLoop, connectAndRunResult]
    case failure.false =>
      refine List.chain'_cons.mpr ⟨?_, List.chain'_cons'.mpr ⟨?_, ih⟩⟩
      · intro hc; exact absurd hc (by simp)
      · intro y hy hc; rfl
    all_goals simp

theorem connectLoop_wait_const (s : List (SessionEnd × Bool)) (n : Nat)
    (h : LoopEvent.wait n ∈ connectLoop s) : n = retryDelaySeconds := by
  induction s with
  | nil => simp [connectLoop] at h
  | cons x rest ih =>
    obtain ⟨res, sd⟩ := x
    cases res <;> cases sd <;> simp [connectLoop, connectAndRunResult] at h
    case failure.false =>
      rcases h with h | h
      · exact h
      · exact ih h

/-- Claim C1: forward_request builds the target URL with Url::set_path on the
envelope's fullpath.  Evaluated at the claim's own example — local origin
http://L/x?y=1 and fullpath /a/b?c=d — set_path percent-encodes the question
mark into the path and keeps the origin's query, so the forwarded URL is
http://L/a/b%3Fc=d?y=1 and not http://L/a/b?c=d as the claim requires. -/
theorem claim_c1_code_eval :
    prepare_local_url ⟨"http", "L", "/x", some "y=1"⟩ = .ok ⟨"http", "L", "/", some "y=1"⟩
    ∧ encodePath "/a/b?c=d" = "/a/b%3Fc=d"
    ∧ (forwardTargetUrl ⟨"http", "L", "/", some "y=1"⟩ "/a/b?c=d").render
        = "http://L/a/b%3Fc=d?y=1"
    ∧ decide ((forwardTargetUrl ⟨"http", "L", "/", some "y=1"⟩ "/a/b?c=d").render
        = "http://L/a/b?c=d") = false := by
  refine ⟨rfl, ?_, ?_, ?_⟩ <;> decide

/-- Claim C2 counterexample: after 51 publishes to a subscriber that never
read (capacity 50), the receiver reports Lagged — and the session loop stays
alive: the select arm's pattern only matches Ok, so the session is not torn
down, contrary to the claim. -/
theorem claim_c2_counterexample :
    (busRecv busCapacity (List.replicate 51 sampleMsg) 0).1 = RecvResult.lagged 1
    ∧ sessionOnRecv (busRecv busCapacity (List.replicate 51 sampleMsg) 0).1 true
        = SessionStatus.alive
    ∧ decide (sessionOnRecv (busRecv busCapacity (List.replicate 51 sampleMsg) 0).1 true
        = SessionStatus.finished) = false := by
  refine ⟨?_, ?_, ?_⟩ <;> decide

/-- Claim C2 as amended: a receiver more than 50 behind gets a Lagged result
and skips to the oldest retained envelope, the session loop treats that as a
no-op and stays alive (the subscriber is NOT detached), publishing always
appends regardless of receiver positions (the producer never blocks), and a
receiver that is at most 50 behind still receives its next envelope. -/
theorem claim_c2_amended (items : List RequestMessage) (pos : Nat) (w : Bool)
    (hlag : pos + busCapacity < items.length) :
    busRecv busCapacity items pos
      = (.lagged (items.length - busCapacity - pos), items.length - busCapacity)
    ∧ sessionOnRecv (busRecv busCapacity items pos).1 w = .alive
    ∧ (∀ msg b, (busPublish msg b).1.items = b.items ++ [msg])
    ∧ (∀ pos2, pos2 < items.length → items.length ≤ pos2 + busCapacity →
        ∃ m, items.get? pos2 = some m
          ∧ busRecv busCapacity items pos2 = (.ok m, pos2 + 1)) := by
  have h1 : busRecv busCapacity items pos
      = (.lagged (items.length - busCapacity - pos), items.length - busCapacity) := by
    unfold busRecv; rw [if_pos hlag]
  refine ⟨h1, by rw [h1]; rfl, fun msg b => rfl, ?_⟩
  intro pos2 h2 h3
  obtain ⟨m, hm⟩ : ∃ m, items.get? pos2 = some m :=
    ⟨items.get ⟨pos2, h2⟩, List.get?_eq_get h2⟩
  refine ⟨m, hm, ?_⟩
  unfold busRecv
  rw [if_neg (by omega), hm]

/-- Claim C2 witness: 52 publishes, subscriber still at position 0. -/
theorem claim_c2_witness :
    busRecv busCapacity (List.replicate 52 sampleMsg) 0 = (RecvResult.lagged 2, 2) :=
  (claim_c2_amended (List.replicate 52 sampleMsg) 0 true (by decide)).1

/-- Claim C3: basic_auth_validator evaluated with server version 1.0.0,
secret s3cr3t, and a client presenting username 0.0.0-dev with the correct
secret: password checks behave as claimed (401 on missing or wrong
password, acceptance on full match), but the 400 body interpolates the
CLIENT's username where the claim puts the server's version — the format
arguments are swapped. -/
theorem claim_c3_code_eval :
    basic_auth_validator "1.0.0" "s3cr3t" ⟨"0.0.0-dev", some "s3cr3t"⟩
      = .badRequest "Server is running version 0.0.0-dev but you are running 1.0.0"
    ∧ decide (basic_auth_validator "1.0.0" "s3cr3t" ⟨"0.0.0-dev", some "s3cr3t"⟩
        = .badRequest "Server is running version 1.0.0 but you are running 0.0.0-dev") = false
    ∧ basic_auth_validator "1.0.0" "s3cr3t" ⟨"1.0.0", some "wrong"⟩ = .unauthorized "Basic"
    ∧ basic_auth_validator "1.0.0" "s3cr3t" ⟨"1.0.0", none⟩ = .unauthorized "Basic"
    ∧ basic_auth_validator "1.0.0" "s3cr3t" ⟨"1.0.0", some "s3cr3t"⟩ = .accepted := by
  refine ⟨?_, ?_, ?_, ?_, ?_⟩ <;> decide

/-- Claim C4: prepare_remote_url rejects non-ws/wss schemes and rewrites a
path different from "/" to /__hookhub__/ — but a remote URL whose path is
exactly "/" is left untouched, against the claim (and against
Profile::prepare, which forces the path unconditionally). -/
theorem claim_c4_code_eval :
    prepare_remote_url ⟨"wss", "example.com", "/", none⟩
      = .ok ⟨"wss", "example.com", "/", none⟩
    ∧ decide ((⟨"wss", "example.com", "/", none⟩ : Url).path = "/__hookhub__/") = false
    ∧ prepare_remote_url ⟨"wss", "example.com", "/x", none⟩
      = .ok ⟨"wss", "example.com", "/__hookhub__/", none⟩
    ∧ prepare_remote_url ⟨"http", "example.com", "/", none⟩
      = .error "remote must use ws or wss scheme"
    ∧ Profile.prepare ⟨⟨"wss", "example.com", "/", none⟩, "sec", ⟨"http", "localhost", "/", none⟩⟩
      = .ok ⟨⟨"wss", "example.com", "/__hookhub__/", none⟩, "sec", ⟨"http", "localhost", "/", none⟩⟩ := by
  refine ⟨rfl, by decide, rfl, rfl, rfl⟩

/-- Claim C5 counterexample: publishing to the bus with zero attached
receivers makes broadcast send return an error, and Broadcaster::send logs
nothing — no "delivered to 0 client(s)" entry ever appears, contrary to the
claim that the delivery count is logged in every case. -/
theorem claim_c5_counterexample :
    (busPublish sampleMsg ⟨[], []⟩).2 = .error ()
    ∧ (broadcasterSend sampleMsg ⟨[], []⟩ []).2 = []
    ∧ decide ((broadcasterSend sampleMsg ⟨[], []⟩ []).2
        = ["Forwarded request to 0 client(s)"]) = false := by
  refine ⟨rfl, rfl, by decide⟩

/-- Claim C5 as amended: publishing never blocks and always appends the
envelope; the intake handler still answers 200 whatever the receiver count;
but the delivery count is logged only when at least one receiver is
attached — with zero receivers the send error is silently discarded and the
log is unchanged. -/
theorem claim_c5_amended (msg : RequestMessage) (b : BusState) (log : List String) :
    (broadcasterSend msg b log).1.items = b.items ++ [msg]
    ∧ (b.receivers.length = 0 → (broadcasterSend msg b log).2 = log)
    ∧ (0 < b.receivers.length → (broadcasterSend msg b log).2
        = log ++ ["Forwarded request to " ++ toString b.receivers.length ++ " client(s)"])
    ∧ (∀ req bus log2, (∀ x ∈ filteredHeaders req.headers, (headerValueToStr x.2).isSome) →
        ∃ out, handle_receive req bus (log2 : List String) = .ok out
          ∧ out.response = ⟨200, ""⟩) := by
  refine ⟨broadcasterSend_items msg b log, ?_, ?_, ?_⟩
  · intro h0; simp [broadcasterSend, busPublish, h0]
  · intro h0; simp [broadcasterSend, busPublish, Nat.pos_iff_ne_zero.mp h0]
  · intro req bus log2 h
    obtain ⟨out, h1, h2, _⟩ := handle_receive_ok req bus log2 h
    exact ⟨out, h1, h2⟩

/-- Claim C5 witness: one attached receiver, then zero. -/
theorem claim_c5_witness :
    (broadcasterSend sampleMsg ⟨[], [0]⟩ []).1.items = [] ++ [sampleMsg]
    ∧ (broadcasterSend sampleMsg ⟨[], [0]⟩ []).2
        = [] ++ ["Forwarded request to " ++ toString (1 : Nat) ++ " client(s)"] :=
  ⟨(claim_c5_amended sampleMsg ⟨[], [0]⟩ []).1,
   (claim_c5_amended sampleMsg ⟨[], [0]⟩ []).2.2.1 (by decide)⟩

/-- Claim C6: for every public request, if every header value is renderable
the intake handler succeeds with 200 and an empty body; and the only way it
fails is that some header surviving the host/origin/connection filter has a
value that cannot be rendered as a valid string (the to_str unwrap panic,
surfacing as a 500). -/
theorem claim_c6 (req : HttpRequestModel) (b : BusState) (log : List String) :
    ((∀ x ∈ req.headers, (headerValueToStr x.2).isSome) →
      ∃ out, handle_receive req b log = .ok out ∧ out.response = ⟨200, ""⟩)
    ∧ (∀ e, handle_receive req b log = .error e →
      ∃ x ∈ filteredHeaders req.headers, headerValueToStr x.2 = none) := by
  constructor
  · intro h
    obtain ⟨out, h1, h2, _⟩ :=
      handle_receive_ok req b log (fun x hx => h x (filteredHeaders_subset hx))
    exact ⟨out, h1, h2⟩
  · intro e he
    cases hr : renderHeaders (filteredHeaders req.headers) with
    | some hs =>
      unfold handle_receive at he
      rw [hr] at he
      simp at he
    | none => exact renderHeaders_none _ hr

/-- Claim C6 witness: the spec's S1 request, one subscriber attached. -/
theorem claim_c6_witness :
    ∃ out, handle_receive sampleReq ⟨[], [0]⟩ [] = .ok out ∧ out.response = ⟨200, ""⟩ :=
  (claim_c6 sampleReq ⟨[], [0]⟩ []).1 (by decide)

/-- Claim C8: the captured envelope's headers are exactly the original
ordered header sequence with every header whose (lower-case) name is host,
origin or connection removed — order and duplicates preserved, each kept
value rendered as its ASCII string.  actix stores header names lower-cased
(the hypothesis hlc records that invariant). -/
theorem claim_c8 (req : HttpRequestModel) (b : BusState) (log : List String)
    (hlc : ∀ x ∈ req.headers, lowerName x.1 = x.1)
    (hren : ∀ x ∈ req.headers, (headerValueToStr x.2).isSome) :
    ∃ out, handle_receive req b log = .ok out
      ∧ out.message.headers
          = (req.headers.filter (fun x =>
              !(lowerName x.1 == "host" || lowerName x.1 == "origin"
                || lowerName x.1 == "connection"))).map
            (fun x => (x.1, String.mk (x.2.map Char.ofNat))) := by
  obtain ⟨out, h1, _, _, _, _, _, hh, _⟩ :=
    handle_receive_ok req b log (fun x hx => hren x (filteredHeaders_subset hx))
  refine ⟨out, h1, ?_⟩
  rw [hh, filteredHeaders_eq]
  congr 1
  apply List.filter_congr
  intro x hx
  rw [hlc x hx]

/-- Claim C8 witness: duplicates of x-h around host/origin/connection
headers; the kept subsequence is the two x-h headers in order. -/
theorem claim_c8_witness :
    ∃ out, handle_receive sampleReq2 ⟨[], [0]⟩ [] = .ok out
      ∧ out.message.headers
          = (sampleReq2.headers.filter (fun x =>
              !(lowerName x.1 == "host" || lowerName x.1 == "origin"
                || lowerName x.1 == "connection"))).map
            (fun x => (x.1, String.mk (x.2.map Char.ofNat))) :=
  claim_c8 sampleReq2 ⟨[], [0]⟩ [] (by decide) (by decide)

/-- Claim C7 counterexample: rebuilding integer 3 gives HTTP/2.0, and
capturing HTTP/2.0 gives 2, not 3 — the round-trip is not lossless at 3, so
the claimed asymmetry at 2 is not the sole one. -/
theorem claim_c7_counterexample :
    Option.map captureVersion (rebuildVersion 3) = some 2
    ∧ decide (Option.map captureVersion (rebuildVersion 3) = some 3) = false
    ∧ Option.map captureVersion (rebuildVersion 4) = some 3
    ∧ decide (Option.map captureVersion (rebuildVersion 4) = some 4) = false := by
  refine ⟨rfl, by decide, rfl, by decide⟩

/-- Claim C7 as amended: rebuild-then-capture round-trips exactly for 0, 1
and 2; 3 comes back as 2 and 4 as 3, because capture folds 2.0 onto 2 and
maps 3.0 to 3 (so 4 is unreachable from capture).  The asymmetry at 2 —
capture maps both 1.1 and 2.0 to 2 while rebuild reads 2 as 1.1 — holds as
described. -/
theorem claim_c7_amended :
    Option.map captureVersion (rebuildVersion 0) = some 0
    ∧ Option.map captureVersion (rebuildVersion 1) = some 1
    ∧ Option.map captureVersion (rebuildVersion 2) = some 2
    ∧ Option.map captureVersion (rebuildVersion 3) = some 2
    ∧ Option.map captureVersion (rebuildVersion 4) = some 3
    ∧ captureVersion .http11 = 2
    ∧ captureVersion .http2 = 2
    ∧ rebuildVersion 2 = some .http11
    ∧ captureVersion .http09 = 0
    ∧ captureVersion .http10 = 1
    ∧ captureVersion .http3 = 3 := by
  exact ⟨rfl, rfl, rfl, rfl, rfl, rfl, rfl, rfl, rfl, rfl, rfl⟩

/-- Claim C9 counterexample: when the server closes the connection,
connect_and_run returns Ok, and the retry loop of handle_connect breaks at
once — the trace is a single attempt with no 5-second wait and no
re-attempt, contrary to the claimed reconnect-after-server-close. -/
theorem claim_c9_counterexample :
    connectLoop [(.serverClose, false), (.failure, false)] = [LoopEvent.attempt]
    ∧ decide (LoopEvent.wait retryDelaySeconds
        ∈ connectLoop [(.serverClose, false), (.failure, false)]) = false
    ∧ connectAndRunResult .serverClose = true := by
  refine ⟨rfl, by decide, rfl⟩

/-- Claim C9 as amended: the first attempt is immediate (the trace starts
with an attempt, no leading wait); every later attempt is immediately
preceded by a full constant wait; every full wait in the trace is exactly
the constant 5 seconds (never exponential) and is interruptible by shutdown
(modelled by the waitInterrupted event, which ends the loop); and a run
ended by a server close yields a single attempt with no reconnection. -/
theorem claim_c9_amended (s : List (SessionEnd × Bool)) (hne : s ≠ []) :
    (connectLoop s).head? = some .attempt
    ∧ List.Chain' (fun a b => b = LoopEvent.attempt → a = LoopEvent.wait retryDelaySeconds)
        (connectLoop s)
    ∧ (∀ n, LoopEvent.wait n ∈ connectLoop s → n = retryDelaySeconds)
    ∧ (∀ sd rest, connectLoop ((SessionEnd.serverClose, sd) :: rest) = [LoopEvent.attempt])
    ∧ (∀ rest, connectLoop ((SessionEnd.failure, true) :: rest)
        = [LoopEvent.attempt, LoopEvent.waitInterrupted]) :=
  ⟨connectLoop_head s hne, connectLoop_chain s,
   fun n h => connectLoop_wait_const s n h,
   fun sd rest => by cases sd <;> rfl,
   fun rest => rfl⟩

/-- Claim C9 witness: a failed attempt followed by a server close. -/
theorem claim_c9_witness :
    (connectLoop [(SessionEnd.failure, false), (SessionEnd.serverClose, false)]).head?
      = some LoopEvent.attempt :=
  (claim_c9_amended [(SessionEnd.failure, false), (SessionEnd.serverClose, false)]
    (by decide)).1

/-- Claim C10: any version integer that fits in a u32 decodes successfully
(the serde newtype has no range check), and for every integer outside 0..4
the client-side rebuild — used by forward_request on the decoded
envelope — hits the panic arm: the rebuild mapping is defined only on 0
through 4. -/
theorem claim_c10 (n : Nat) (h5 : 5 ≤ n) (h32 : n < 2 ^ 32) :
    decodeVersionField n = .ok n
    ∧ rebuildVersion n = none
    ∧ (∀ req : RequestMessage, req.version = n → forwardRequestVersion req = none) := by
  have hr : rebuildVersion n = none := by
    obtain ⟨m, rfl⟩ : ∃ m, n = m + 5 := ⟨n - 5, by omega⟩
    rfl
  exact ⟨by unfold decodeVersionField; rw [if_pos h32], hr,
    fun req hv => by unfold forwardRequestVersion; rw [hv, hr]⟩

/-- Claim C10 witness: version integer 7. -/
theorem claim_c10_witness :
    decodeVersionField 7 = .ok 7 ∧ rebuildVersion 7 = none :=
  ⟨(claim_c10 7 (by decide) (by decide)).1, (claim_c10 7 (by decide) (by decide)).2.1⟩
